import Mathlib

/-!
Shallow embedding of the `wgpu-learn` renderer core: `src/src/state.rs`
(struct `State` with `new`, `resize`, `input`, `render`) and
`src/src/pipeline.rs` (`render_pipe`).

Modelling choices:
* `u32` dimensions become `Nat` (the code only compares and stores them,
  no arithmetic that could wrap).
* `f64` colour components and cursor coordinates become `ℚ`; divisions in
  the translated code are exact rational divisions.
* GPU handles (`Device`, `Queue`, `Surface`, `Window`, shader modules) are
  opaque and carry no state the claims mention, so they are omitted from
  the state record; the observable effects of `surface.configure` and of
  the render pass are returned explicitly instead.
* `self.surface.get_current_texture()` is an external call; `render` takes
  its outcome (`Except SurfaceError Frame`) as an argument.
-/

/-- `wgpu::TextureFormat`, abstracted to an identifier plus the one bit the
code inspects: `f.describe().srgb`. -/
structure TextureFormat where
  id : Nat
  srgb : Bool
deriving DecidableEq, Repr

/-- `wgpu::Color` (four `f64` components), components modelled as `ℚ`. -/
structure Color where
  r : ℚ
  g : ℚ
  b : ℚ
  a : ℚ
deriving DecidableEq, Repr

/-- `wgpu::Color::BLUE`. -/
def Color.BLUE : Color := ⟨0, 0, 1, 1⟩

/-- `wgpu::Color::GREEN`. -/
def Color.GREEN : Color := ⟨0, 1, 0, 1⟩

/-- `wgpu::Color::BLACK`. -/
def Color.BLACK : Color := ⟨0, 0, 0, 1⟩

/-- `winit::dpi::PhysicalSize<u32>`. -/
structure PhysicalSize where
  width : Nat
  height : Nat
deriving DecidableEq, Repr

/-- `winit::dpi::PhysicalPosition<f64>` (cursor coordinates). -/
structure PhysicalPosition where
  x : ℚ
  y : ℚ
deriving DecidableEq, Repr

/-- `wgpu::SurfaceConfiguration` as built in `State::new`: the fields the
code reads or writes (`usage` is the constant `RENDER_ATTACHMENT` and
`view_formats` the constant `vec![]`, both omitted). -/
structure SurfaceConfiguration where
  format : TextureFormat
  width : Nat
  height : Nat
  present_mode : Nat
  alpha_mode : Nat
deriving DecidableEq, Repr

/-- `wgpu::RenderPipeline` as far as the program determines it: the two
entry-point names bound from the shader and the colour-target format.
All remaining descriptor fields in `render_pipe` / `State::new` are
constants (triangle list, ccw front face, back culling, fill mode, no
depth/stencil, one sample, replace blend, no multiview). -/
structure RenderPipeline where
  vs_entry : String
  fs_entry : String
  target_format : TextureFormat
deriving DecidableEq, Repr

/-- `render_pipe` from `src/src/pipeline.rs`: builds the pipeline for a
variant name, binding `format!("vs_{}", shader_color)` and
`format!("fs_{}", shader_color)` against `config.format`. -/
def render_pipe (config : SurfaceConfiguration) (shader_color : String) :
    RenderPipeline :=
  { vs_entry := "vs_" ++ shader_color
    fs_entry := "fs_" ++ shader_color
    target_format := config.format }

/-- `winit::event::MouseButton`. -/
inductive MouseButton where
  | Left
  | Right
  | Middle
  | Other (n : Nat)
deriving DecidableEq, Repr

/-- `winit::event::ElementState`. -/
inductive ElementState where
  | Pressed
  | Released
deriving DecidableEq, Repr

/-- Logical key identifiers.  The `state.rs` under `src/` never inspects
the key, so only the spec's designated toggle key is distinguished. -/
inductive VirtualKeyCode where
  | Toggle
  | Other (n : Nat)
deriving DecidableEq, Repr

/-- The `winit::event::WindowEvent` constructors `State::input` matches on,
plus representatives of the ones falling into its `_` arm. -/
inductive WindowEvent where
  | CursorEntered
  | CursorLeft
  | MouseInput (state : ElementState) (button : MouseButton)
  | CursorMoved (position : PhysicalPosition)
  | KeyboardInput (state : ElementState) (key : VirtualKeyCode)
  | Resized (size : PhysicalSize)
  | Other (n : Nat)
deriving DecidableEq, Repr

/-- The fields of `struct State` the program reads or writes (the opaque
device/queue/surface/window handles are omitted, see the header). -/
structure State where
  config : SurfaceConfiguration
  size : PhysicalSize
  color : Color
  click : Bool
  render_pipeline : RenderPipeline
  shader_color : String
deriving DecidableEq, Repr

/-- The format choice in `State::new`:
`surface_caps.formats.iter().copied().filter(|f| f.describe().srgb).next().unwrap_or(surface_caps.formats[0])`.
`formats[0]` panics on an empty list (modelled as `none`); it is evaluated
eagerly as the `unwrap_or` argument, so the empty list is `none` even
though the filtered iterator is also empty only then. -/
def surface_format (formats : List TextureFormat) : Option TextureFormat :=
  match formats.head? with
  | none => none
  | some f0 => some (((formats.filter fun f => f.srgb).head?).getD f0)

/-- The capability lists queried from `surface.get_capabilities(&adapter)`. -/
structure SurfaceCapabilities where
  formats : List TextureFormat
  present_modes : List Nat
  alpha_modes : List Nat
deriving DecidableEq, Repr

/-- `State::new` (the part after device acquisition): choose a format,
build the configuration from the window's inner size and the first
present/alpha modes, apply it to the surface, and build the initial
pipeline for `shader_color = "main"`.  Indexing an empty capability list
panics, modelled as `none`.  Returns the state together with the
configuration applied by `surface.configure(&device, &config)`. -/
def State.new (size : PhysicalSize) (caps : SurfaceCapabilities) :
    Option (State × SurfaceConfiguration) :=
  match surface_format caps.formats, caps.present_modes.head?,
      caps.alpha_modes.head? with
  | some fmt, some pm, some am =>
    let config : SurfaceConfiguration :=
      { format := fmt
        width := size.width
        height := size.height
        present_mode := pm
        alpha_mode := am }
    let shader_color : String := "main"
    some
      ({ config := config
         size := size
         color := Color.BLUE
         click := false
         render_pipeline :=
           { vs_entry := "vs_" ++ shader_color
             fs_entry := "fs_" ++ shader_color
             target_format := config.format }
         shader_color := shader_color }, config)
  | _, _, _ => none

/-- `State::resize`.  The second component is the configuration passed to
`surface.configure(&self.device, &self.config)`, `none` when the guard
`new_size.width > 0 && new_size.height > 0` fails and nothing happens. -/
def State.resize (s : State) (new_size : PhysicalSize) :
    State × Option SurfaceConfiguration :=
  if new_size.width > 0 ∧ new_size.height > 0 then
    let config :=
      { s.config with width := new_size.width, height := new_size.height }
    ({ s with size := new_size, config := config }, some config)
  else
    (s, none)

/-- `State::input` from `src/src/state.rs` (lines 170–214).  Returns the
new state and the `bool` result (`true` = the main loop will not process
the event further, i.e. repaint). -/
def State.input (s : State) (event : WindowEvent) : State × Bool :=
  match event with
  | .CursorEntered =>
    ({ s with color := Color.GREEN }, true)
  | .CursorLeft =>
    ({ s with click := false, color := Color.BLACK }, true)
  | .MouseInput _ button =>
    if MouseButton.Left = button then
      ({ s with click := true }, false)
    else
      ({ s with click := false }, false)
  | .CursorMoved position =>
    if s.click then
      ({ s with
          color :=
            { r := position.x / (s.size.width : ℚ)
              g := position.y / (s.size.height : ℚ)
              b := 1
              a := 1 }
          click := false }, true)
    else
      (s, false)
  | _ => (s, false)

/-- `wgpu::SurfaceError` (the variants of frame acquisition). -/
inductive SurfaceError where
  | Timeout
  | Outdated
  | Lost
  | OutOfMemory
deriving DecidableEq, Repr

/-- An acquired `SurfaceTexture`, opaque. -/
structure Frame where
  id : Nat
deriving DecidableEq, Repr

/-- One recorded render pass as `State::render` encodes it: a single colour
attachment cleared with `self.color`, the bound pipeline, and the draw
call `draw(0..3, 0..1)`. -/
structure RenderPass where
  load_color : Color
  pipeline : RenderPipeline
  vertex_range : Nat × Nat
  instance_range : Nat × Nat
deriving DecidableEq, Repr

/-- The observable outcome of one `State::render` call: the state after
the call, the render passes recorded and submitted, whether the frame was
presented, and the returned `Result<(), wgpu::SurfaceError>`. -/
structure RenderResult where
  state : State
  passes : List RenderPass
  presented : Bool
  returned : Except SurfaceError Unit
deriving Repr

/-- `State::render`: `let output = self.surface.get_current_texture()?;`
propagates a `SurfaceError` immediately (no pass recorded, nothing
presented, state untouched); otherwise one pass is recorded with the
current clear colour and pipeline, submitted, and the frame presented. -/
def State.render (s : State) (acquired : Except SurfaceError Frame) :
    RenderResult :=
  match acquired with
  | .error e => { state := s, passes := [], presented := false, returned := .error e }
  | .ok _ =>
    { state := s
      passes :=
        [{ load_color := s.color
           pipeline := s.render_pipeline
           vertex_range := (0, 3)
           instance_range := (0, 1) }]
      presented := true
      returned := .ok () }

/-- Primary/default shader variant name (`shader_color = "main"` in
`State::new`). -/
def primary_variant : String := "main"

/-- Modelled from the spec: the alternate shader variant name (`rainbow`),
observed only in the spec's variant table — the `state.rs` under `src/`
never mentions it. -/
def alternate_variant : String := "rainbow"

/-- Modelled from the spec: the variant-swappable form of `State::input`
(spec §4.3 rows for the designated toggle key, §9 "implement only the most
capable form").  The toggle-key arms are absent from the `state.rs` under
`src/` (its `input` sends keyboard events to the `_` arm), so they are
modelled from the spec's words: key released sets the alternate variant,
key pressed the primary variant, each rebuilding the pipeline through
`render_pipe` and consuming the event (repaint); every other event is
handled exactly as by the translated `State.input`. -/
def State.inputWithToggle (s : State) (event : WindowEvent) : State × Bool :=
  match event with
  | .KeyboardInput .Released .Toggle =>
    ({ s with
        shader_color := alternate_variant
        render_pipeline := render_pipe s.config alternate_variant }, true)
  | .KeyboardInput .Pressed .Toggle =>
    ({ s with
        shader_color := primary_variant
        render_pipeline := render_pipe s.config primary_variant }, true)
  | _ => s.input event

/-- Folding a list of window events through the variant-swappable input
translator (states only; the repaint flags are dropped). -/
def applyEvents (s : State) (evs : List WindowEvent) : State :=
  evs.foldl (fun s e => (s.inputWithToggle e).1) s

/-- A concrete sRGB texture format for concrete instances. -/
def demoFormat : TextureFormat := ⟨7, true⟩

/-- Concrete surface capabilities for concrete instances. -/
def demoCaps : SurfaceCapabilities := ⟨[demoFormat], [0], [0]⟩

/-- A concrete surface configuration (800×600, demo format). -/
def demoConfig : SurfaceConfiguration :=
  { format := demoFormat, width := 800, height := 600
    present_mode := 0, alpha_mode := 0 }

/-- A concrete renderer state: the state `State::new` yields for an
800×600 window with `demoCaps`. -/
def demoState : State :=
  { config := demoConfig
    size := ⟨800, 600⟩
    color := Color.BLUE
    click := false
    render_pipeline := render_pipe demoConfig "main"
    shader_color := "main" }

/-- `demoState` really is the state built by `State.new`. -/
theorem demoState_new :
    State.new ⟨800, 600⟩ demoCaps = some (demoState, demoConfig) := rfl

/-- C6: on `CursorEntered` the clear colour becomes solid green
`(0, 1, 0, 1)` and the event is consumed (repaint); on `CursorLeft` the
clear colour becomes solid black `(0, 0, 0, 1)`, `click` becomes `false`,
and the event is consumed — for every prior state. -/
theorem enter_leave_spec (s : State) :
    s.input .CursorEntered = ({ s with color := ⟨0, 1, 0, 1⟩ }, true) ∧
    s.input .CursorLeft =
      ({ s with click := false, color := ⟨0, 0, 0, 1⟩ }, true) :=
  ⟨rfl, rfl⟩

/-- C2 (amended): `MouseInput` ignores the pressed/released element state;
a press or release of the left button sets `click = true`, of any other
button sets `click = false`, and the event is never consumed. -/
theorem mouse_input_spec (s : State) (st : ElementState) (b : MouseButton) :
    s.input (.MouseInput st b) =
      (if b = MouseButton.Left then { s with click := true }
       else { s with click := false }, false) := by
  cases b <;> rfl

/-- C2 counterexample: releasing the left button over a state with
`click = false` mutates the state (`click` becomes `true`), so a button
release is not free of state change. -/
theorem mouse_release_changes_state :
    demoState.click = false ∧
    (demoState.input (.MouseInput .Released .Left)).1.click = true ∧
    (demoState.input (.MouseInput .Released .Left)).1 ≠ demoState := by
  refine ⟨rfl, rfl, fun h => ?_⟩
  exact absurd (congrArg State.click h) (by decide)

/-- C3: with `click = true` and a positive surface size, a cursor move to
`(x, y)` sets the clear colour to `(x / W, y / H, 1, 1)`, resets `click`
to `false` and consumes the event; a second move (any coordinates) then
leaves the state unchanged and is not consumed. -/
theorem cursor_move_spec (s : State) (p q : PhysicalPosition)
    (hclick : s.click = true)
    (hw : 0 < s.size.width) (hh : 0 < s.size.height) :
    (s.input (.CursorMoved p)).1.color =
      ⟨p.x / (s.size.width : ℚ), p.y / (s.size.height : ℚ), 1, 1⟩ ∧
    (s.input (.CursorMoved p)).1.click = false ∧
    (s.input (.CursorMoved p)).2 = true ∧
    (s.input (.CursorMoved p)).1.input (.CursorMoved q) =
      ((s.input (.CursorMoved p)).1, false) := by
  have hstep : s.input (.CursorMoved p) =
      ({ s with
          color := ⟨p.x / (s.size.width : ℚ), p.y / (s.size.height : ℚ), 1, 1⟩
          click := false }, true) := by
    simp [State.input, hclick]
  rw [hstep]
  exact ⟨rfl, rfl, rfl, rfl⟩

/-- C3 witness at a concrete state: `demoState` with the button down,
move to `(400, 300)` on the 800×600 surface. -/
theorem cursor_move_spec_witness :
    ({ demoState with click := true } : State).click = true ∧
    (({ demoState with click := true } : State).input
        (.CursorMoved ⟨400, 300⟩)).1.color = ⟨1/2, 1/2, 1, 1⟩ ∧
    (({ demoState with click := true } : State).input
        (.CursorMoved ⟨400, 300⟩)).1.click = false := by
  have h := cursor_move_spec { demoState with click := true }
    ⟨400, 300⟩ ⟨10, 20⟩ rfl (by decide) (by decide)
  refine ⟨rfl, ?_, h.2.1⟩
  rw [h.1]
  norm_num [demoState]

/-- C4: a resize with a zero dimension (in any combination) is a no-op:
the state (size and configuration included) is unchanged and the surface
is not reconfigured. -/
theorem resize_zero_noop (s : State) (n : PhysicalSize)
    (h : n.width = 0 ∨ n.height = 0) :
    s.resize n = (s, none) := by
  unfold State.resize
  rw [if_neg]
  rintro ⟨h1, h2⟩
  rcases h with h | h <;> omega

/-- C4 witness: resizing `demoState` to width 0 changes nothing. -/
theorem resize_zero_noop_witness :
    demoState.resize ⟨0, 600⟩ = (demoState, none) :=
  resize_zero_noop demoState ⟨0, 600⟩ (Or.inl rfl)

/-- C5: a resize with both dimensions positive stores the requested width
and height in the configuration (and the requested size) and reconfigures
the surface with exactly the stored configuration. -/
theorem resize_positive_spec (s : State) (n : PhysicalSize)
    (hw : 0 < n.width) (hh : 0 < n.height) :
    (s.resize n).1.config.width = n.width ∧
    (s.resize n).1.config.height = n.height ∧
    (s.resize n).1.size = n ∧
    (s.resize n).2 = some (s.resize n).1.config := by
  unfold State.resize
  rw [if_pos ⟨hw, hh⟩]
  exact ⟨rfl, rfl, rfl, rfl⟩

/-- C5 witness: resizing `demoState` to 1024×768. -/
theorem resize_positive_spec_witness :
    (demoState.resize ⟨1024, 768⟩).1.config.width = 1024 ∧
    (demoState.resize ⟨1024, 768⟩).2 =
      some (demoState.resize ⟨1024, 768⟩).1.config :=
  ⟨(resize_positive_spec demoState ⟨1024, 768⟩ (by decide) (by decide)).1,
   (resize_positive_spec demoState ⟨1024, 768⟩ (by decide) (by decide)).2.2.2⟩

/-- C7: when frame acquisition fails, `render` returns that specific
surface error, records no render pass, presents nothing, and leaves the
state (clear colour, click flag, configuration, pipeline) unchanged. -/
theorem render_error_spec (s : State) (e : SurfaceError) :
    s.render (.error e) =
      { state := s, passes := [], presented := false, returned := .error e } :=
  rfl

/-- C8: the chosen surface format is the first supported format flagged
sRGB when one exists (first part: no format is sRGB, so the head of the
supported list is chosen; second part: the first sRGB format is chosen
wherever it sits in the list). -/
theorem surface_format_spec :
    (∀ (f0 : TextureFormat) (rest : List TextureFormat),
       (∀ f ∈ f0 :: rest, f.srgb = false) →
       surface_format (f0 :: rest) = some f0) ∧
    (∀ (fs1 fs2 : List TextureFormat) (f : TextureFormat),
       (∀ g ∈ fs1, g.srgb = false) → f.srgb = true →
       surface_format (fs1 ++ f :: fs2) = some f) := by
  constructor
  · intro f0 rest hall
    have hfilter : (f0 :: rest).filter (fun f => f.srgb) = [] :=
      List.filter_eq_nil_iff.mpr (by simpa using hall)
    simp [surface_format, hfilter]
  · intro fs1 fs2 f hpre hf
    have h1 : fs1.filter (fun g => g.srgb) = [] :=
      List.filter_eq_nil_iff.mpr (by simpa using hpre)
    have hfilter : (fs1 ++ f :: fs2).filter (fun g => g.srgb) =
        f :: fs2.filter (fun g => g.srgb) := by
      rw [List.filter_append, h1, List.nil_append]
      simp [hf]
    cases fs1 with
    | nil =>
      simp only [List.nil_append] at hfilter ⊢
      simp [surface_format, hfilter]
    | cons b bs =>
      rw [List.cons_append] at hfilter ⊢
      simp [surface_format, hfilter]

/-- C8 witness: a list with no sRGB format falls back to its head; a list
whose second entry is the first sRGB format selects that entry. -/
theorem surface_format_spec_witness :
    surface_format [⟨0, false⟩, ⟨1, false⟩] = some ⟨0, false⟩ ∧
    surface_format ([⟨2, false⟩] ++ (⟨3, true⟩ : TextureFormat) :: [⟨4, true⟩]) =
      some ⟨3, true⟩ :=
  ⟨surface_format_spec.1 ⟨0, false⟩ [⟨1, false⟩] (by decide),
   surface_format_spec.2 [⟨2, false⟩] [⟨4, true⟩] ⟨3, true⟩ (by decide) rfl⟩

/-- C9 counterexample: initialization with a zero-width window applies a
zero-width configuration to the surface (`State::new` copies the window's
inner size into the configuration with no positivity guard before
`surface.configure`). -/
theorem init_configures_zero_width :
    (State.new ⟨0, 600⟩ demoCaps).map (fun p => p.2.width) = some 0 := rfl

/-- C9 (amended): every configuration `resize` applies to the surface has
strictly positive width and height, and the configuration applied at
initialization has strictly positive dimensions provided the initial
window size does. -/
theorem applied_config_positive :
    (∀ (s : State) (n : PhysicalSize) (cfg : SurfaceConfiguration),
       (s.resize n).2 = some cfg → 0 < cfg.width ∧ 0 < cfg.height) ∧
    (∀ (size : PhysicalSize) (caps : SurfaceCapabilities)
       (s : State) (cfg : SurfaceConfiguration),
       0 < size.width → 0 < size.height →
       State.new size caps = some (s, cfg) →
       0 < cfg.width ∧ 0 < cfg.height) := by
  constructor
  · intro s n cfg h
    by_cases hpos : n.width > 0 ∧ n.height > 0
    · unfold State.resize at h
      rw [if_pos hpos] at h
      injection h with h
      rw [← h]
      exact ⟨hpos.1, hpos.2⟩
    · unfold State.resize at h
      rw [if_neg hpos] at h
      exact absurd h (by simp)
  · intro size caps s cfg hw hh hnew
    unfold State.new at hnew
    split at hnew
    · simp only [Option.some.injEq, Prod.mk.injEq] at hnew
      obtain ⟨-, hcfg⟩ := hnew
      rw [← hcfg]
      exact ⟨hw, hh⟩
    · exact absurd hnew (by simp)

/-- C9 witness: a positive resize and a positive initialization both apply
positive configurations. -/
theorem applied_config_positive_witness :
    (0 < ({ demoConfig with width := 5, height := 6 } :
        SurfaceConfiguration).width) ∧
    (0 < demoConfig.width ∧ 0 < demoConfig.height) :=
  ⟨(applied_config_positive.1 demoState ⟨5, 6⟩ _ rfl).1,
   applied_config_positive.2 ⟨800, 600⟩ demoCaps demoState demoConfig
     (by decide) (by decide) demoState_new⟩

/-- C10: input mutates at most the clear colour and the click flag — the
stored size, surface configuration, shader variant name and render
pipeline survive every event — and every event outside the four handled
kinds leaves the whole state unchanged and is not consumed. -/
theorem input_frame_effect (s : State) (e : WindowEvent) :
    ((s.input e).1.size = s.size ∧
     (s.input e).1.config = s.config ∧
     (s.input e).1.shader_color = s.shader_color ∧
     (s.input e).1.render_pipeline = s.render_pipeline) ∧
    (match e with
     | .CursorEntered => True
     | .CursorLeft => True
     | .MouseInput _ _ => True
     | .CursorMoved _ => True
     | _ => s.input e = (s, false)) := by
  cases e with
  | CursorEntered => exact ⟨⟨rfl, rfl, rfl, rfl⟩, trivial⟩
  | CursorLeft => exact ⟨⟨rfl, rfl, rfl, rfl⟩, trivial⟩
  | MouseInput st b =>
    refine ⟨?_, trivial⟩
    cases b <;> exact ⟨rfl, rfl, rfl, rfl⟩
  | CursorMoved p =>
    refine ⟨?_, trivial⟩
    cases hc : s.click <;> simp [State.input, hc]
  | KeyboardInput st k => exact ⟨⟨rfl, rfl, rfl, rfl⟩, rfl⟩
  | Resized n => exact ⟨⟨rfl, rfl, rfl, rfl⟩, rfl⟩
  | Other n => exact ⟨⟨rfl, rfl, rfl, rfl⟩, rfl⟩

/-- The variant-swappable input translator never touches the surface
configuration. -/
theorem inputWithToggle_preserves_config (s : State) (e : WindowEvent) :
    (s.inputWithToggle e).1.config = s.config := by
  cases e with
  | CursorEntered => rfl
  | CursorLeft => rfl
  | MouseInput st b => cases b <;> rfl
  | CursorMoved p => cases hc : s.click <;> simp [State.inputWithToggle, State.input, hc]
  | KeyboardInput st k => cases st <;> cases k <;> rfl
  | Resized n => rfl
  | Other n => rfl

/-- C1 (amended): a release of the toggle key installs the alternate
variant and a pipeline rebuilt for it, a press installs the primary
variant likewise, both consuming the event (repaint); consequently a
toggle sequence that ends with a key press restores the original active
variant and a pipeline bound to the same entry points as the initial
one (an even-length press/release sequence, which ends with a release,
leaves the alternate variant instead). -/
theorem toggle_key_spec :
    (∀ s : State, s.inputWithToggle (.KeyboardInput .Released .Toggle) =
      ({ s with
          shader_color := alternate_variant
          render_pipeline := render_pipe s.config alternate_variant }, true)) ∧
    (∀ s : State, s.inputWithToggle (.KeyboardInput .Pressed .Toggle) =
      ({ s with
          shader_color := primary_variant
          render_pipeline := render_pipe s.config primary_variant }, true)) ∧
    (∀ (s : State) (evs : List WindowEvent),
       s.shader_color = primary_variant →
       s.render_pipeline = render_pipe s.config primary_variant →
       (applyEvents s
           (evs ++ [.KeyboardInput .Pressed .Toggle])).shader_color =
         s.shader_color ∧
       (applyEvents s
           (evs ++ [.KeyboardInput .Pressed .Toggle])).render_pipeline.vs_entry =
         s.render_pipeline.vs_entry ∧
       (applyEvents s
           (evs ++ [.KeyboardInput .Pressed .Toggle])).render_pipeline.fs_entry =
         s.render_pipeline.fs_entry) := by
  refine ⟨fun s => rfl, fun s => rfl, ?_⟩
  intro s evs hvar hpipe
  have hfold : applyEvents s (evs ++ [.KeyboardInput .Pressed .Toggle]) =
      ((applyEvents s evs).inputWithToggle (.KeyboardInput .Pressed .Toggle)).1 := by
    unfold applyEvents
    rw [List.foldl_append]
    rfl
  rw [hfold, hvar, hpipe]
  exact ⟨rfl, rfl, rfl⟩

/-- C1 witness: from the freshly initialized state, the two-event sequence
release-then-press (which ends with a press) restores the original
variant. -/
theorem toggle_key_spec_witness :
    demoState.shader_color = primary_variant ∧
    demoState.render_pipeline = render_pipe demoState.config primary_variant ∧
    (applyEvents demoState
        ([WindowEvent.KeyboardInput .Released .Toggle] ++
          [WindowEvent.KeyboardInput .Pressed .Toggle])).shader_color =
      demoState.shader_color :=
  ⟨rfl, rfl,
   (toggle_key_spec.2.2 demoState [.KeyboardInput .Released .Toggle] rfl rfl).1⟩

/-- C1 counterexample: an even number of toggle-key events — a press then
a release, starting from the freshly initialized state — leaves the
alternate variant `"rainbow"`, not the original `"main"`, and a pipeline
bound to different entry points. -/
theorem toggle_even_not_restored :
    demoState.shader_color = primary_variant ∧
    (applyEvents demoState
        [WindowEvent.KeyboardInput .Pressed .Toggle,
         WindowEvent.KeyboardInput .Released .Toggle]).shader_color =
      alternate_variant ∧
    alternate_variant ≠ primary_variant ∧
    (applyEvents demoState
        [WindowEvent.KeyboardInput .Pressed .Toggle,
         WindowEvent.KeyboardInput .Released .Toggle]).render_pipeline.vs_entry ≠
      demoState.render_pipeline.vs_entry :=
  ⟨rfl, rfl, by decide, by decide⟩
